import Mathlib

/-!
Shallow embedding of the OTP-sending web service (`src/app.py`).

The program is a Flask app with a per-client-address sliding-window rate
limiter (`clean_old`, `too_many_requests`, `record_request`), a phone-number
normalizer (`normalize_phone`), and a single POST handler (`send_otp`).

Modelling decisions:
* Timestamps (Python `time.time()` floats) are rationals (`ℚ`); the rate-limit
  table `_recent_requests` (a dict from client address to timestamp list, with
  absent keys behaving as `[]` via `setdefault`) is a total function
  `String → List ℚ` defaulting to `[]`.
* The Python functions mutate a global dict; here each one returns the updated
  table explicitly.
* A single instant `now` is used for one request: the handler calls
  `time.time()` several times within microseconds of each other, and no claim
  depends on intra-request clock drift.
* `str.isdigit` is modelled by `Char.isDigit` (ASCII decimal digits); the
  claims only concern ASCII inputs.
* Python truthiness of environment variables (`None` and `""` are falsy) is
  `truthy` on `Option String`.
* Client-address resolution from headers and JSON-body parsing are Flask
  machinery; the handler takes the resolved address and the extracted `phone`
  field (`Option String`, `none` for JSON null) as inputs.
* The Twilio call's outcome is an oracle input `Except String String`:
  `.ok sid` for a successful send returning a message SID, `.error e` for a
  raised exception with text `e`. The `deliveryAttempted` flag records whether
  the handler reached the Twilio call at all, and `log` records the
  server-side log line printed in the exception branch.
-/

/-- Client address (`ip` in the source), the rate-limit key. -/
abbrev Ip := String

/-- Timestamp in seconds since epoch (`time.time()`), modelled as `ℚ`. -/
abbrev Time := ℚ

/-- `RATE_LIMIT_WINDOW = 60` seconds (src/app.py line 33). -/
def RATE_LIMIT_WINDOW : Time := 60

/-- `MAX_PER_WINDOW = 3` sends per window per address (src/app.py line 34). -/
def MAX_PER_WINDOW : Nat := 3

/-- The `_recent_requests` table: address → list of timestamps (line 36). -/
def RateState := Ip → List Time

/-- The initial, empty rate-limit table. -/
def emptyState : RateState := fun _ => []

/-- `clean_old(ip)` (lines 38–41): keep, for key `ip`, only the timestamps `t`
with `now - t < RATE_LIMIT_WINDOW`; other keys are untouched. -/
def clean_old (s : RateState) (ip : Ip) (now : Time) : RateState :=
  fun k => if k = ip
    then (s k).filter (fun t => decide (now - t < RATE_LIMIT_WINDOW))
    else s k

/-- `too_many_requests(ip)` (lines 43–45): prune via `clean_old`, then report
whether the remaining count is `≥ MAX_PER_WINDOW`.  Returns the verdict
together with the mutated table. -/
def too_many_requests (s : RateState) (ip : Ip) (now : Time) : Bool × RateState :=
  let s2 := clean_old s ip now
  (decide (MAX_PER_WINDOW ≤ (s2 ip).length), s2)

/-- `record_request(ip)` (lines 47–49): prune via `clean_old`, then append the
current timestamp for `ip`. -/
def record_request (s : RateState) (ip : Ip) (now : Time) : RateState :=
  let s2 := clean_old s ip now
  fun k => if k = ip then s2 k ++ [now] else s2 k

/-- `normalize_phone(number)` (lines 52–56): `''.join(ch for ch in (number or
"") if ch.isdigit() or ch == '+')`.  `none` models Python `None`. -/
def normalize_phone (number : Option String) : String :=
  String.mk (((number.getD "").toList).filter (fun ch => ch.isDigit || ch == '+'))

/-- Python truthiness of an environment variable: `None` and `""` are falsy. -/
def truthy : Option String → Bool
  | none => false
  | some s => !(s == "")

/-- The Twilio-related environment configuration (lines 12–15). -/
structure TwilioConfig where
  sid : Option String
  token : Option String
  from_number : Option String
  fixed_otp : String

/-- The observable outcome of one `POST /send-otp` request: HTTP status, the
string under the JSON body's `message`/`error` key, the rate-limit table after
the request, whether the Twilio delivery call was reached, and the server-side
log line (printed, not returned) from the exception branch. -/
structure SendOtpResponse where
  status : Nat
  body : String
  state : RateState
  deliveryAttempted : Bool
  log : Option String

/-- `send_otp()` (lines 156–198), after client-address resolution and JSON
parsing: rate-limit check, normalization, emptiness check, digit-count check,
recording, then the DEV fallback or the Twilio call (whose outcome is the
oracle `delivery`). -/
def send_otp (cfg : TwilioConfig) (s : RateState) (client_ip : Ip) (now : Time)
    (phoneField : Option String) (delivery : Except String String) : SendOtpResponse :=
  if (too_many_requests s client_ip now).1 then
    { status := 429, body := "Rate limit exceeded. Try again later.",
      state := (too_many_requests s client_ip now).2, deliveryAttempted := false, log := none }
  else
    let s1 := (too_many_requests s client_ip now).2
    let phone := normalize_phone phoneField
    if phone = "" then
      { status := 400, body := "Phone number required.",
        state := s1, deliveryAttempted := false, log := none }
    else
      let digits := phone.toList.filter (fun ch => ch.isDigit)
      if digits.length < 8 ∨ 15 < digits.length then
        { status := 400, body := "Invalid phone number format.",
          state := s1, deliveryAttempted := false, log := none }
      else
        let s2 := record_request s1 client_ip now
        let otp := if cfg.fixed_otp = "" then "123456" else cfg.fixed_otp
        let message_body := "Your verification code is: " ++ otp
        if !(truthy cfg.sid && truthy cfg.token && truthy cfg.from_number) then
          { status := 200, body := "(DEV) Would send to " ++ phone ++ ": " ++ message_body,
            state := s2, deliveryAttempted := false, log := none }
        else
          match delivery with
          | .ok sid =>
              { status := 200, body := "OTP sent to " ++ phone ++ ". SID: " ++ sid,
                state := s2, deliveryAttempted := true, log := none }
          | .error e =>
              { status := 500, body := "Failed to send SMS. Check server logs and Twilio configuration.",
                state := s2, deliveryAttempted := true,
                log := some ("Twilio send error: " ++ e) }

/-- Substring containment on strings, used to state "the body contains …". -/
def strContains (a b : String) : Prop := ∃ x y, x ++ b ++ y = a

/-- The statuses returned by a sequence of `POST /send-otp` requests from one
client, threading the rate-limit table through the handler at the given
request instants. -/
def runStatuses (cfg : TwilioConfig) (ip : Ip) (ph : Option String)
    (d : Except String String) : RateState → List Time → List Nat
  | _, [] => []
  | s, t :: ts =>
      (send_otp cfg s ip t ph d).status ::
        runStatuses cfg ip ph d (send_otp cfg s ip t ph d).state ts

/-! ### Helper lemmas about the rate limiter and the handler -/

/-- Evaluating the pruned table at the pruned key. -/
theorem clean_old_apply (s : RateState) (ip : Ip) (now : Time) :
    clean_old s ip now ip
      = (s ip).filter (fun t => decide (now - t < RATE_LIMIT_WINDOW)) := by
  simp [clean_old]

/-- The over-limit verdict is the pruned count reaching `MAX_PER_WINDOW`. -/
theorem too_many_fst (s : RateState) (ip : Ip) (now : Time) :
    (too_many_requests s ip now).1
      = decide (MAX_PER_WINDOW ≤
          ((s ip).filter (fun t => decide (now - t < RATE_LIMIT_WINDOW))).length) := by
  simp [too_many_requests, clean_old]

/-- `too_many_requests` mutates the table exactly as `clean_old` does. -/
theorem too_many_snd (s : RateState) (ip : Ip) (now : Time) :
    (too_many_requests s ip now).2 = clean_old s ip now := rfl

/-- Evaluating `record_request` at the recorded key. -/
theorem record_request_apply (s : RateState) (ip : Ip) (now : Time) :
    record_request s ip now ip
      = (s ip).filter (fun t => decide (now - t < RATE_LIMIT_WINDOW)) ++ [now] := by
  simp [record_request, clean_old]

/-- Pruning at a fixed instant is idempotent. -/
theorem filter_window_idem (l : List Time) (now : Time) :
    (l.filter (fun t => decide (now - t < RATE_LIMIT_WINDOW))).filter
        (fun t => decide (now - t < RATE_LIMIT_WINDOW))
      = l.filter (fun t => decide (now - t < RATE_LIMIT_WINDOW)) := by
  rw [List.filter_filter]
  simp

/-- Recording on an already-pruned table: the double prune collapses. -/
theorem record_clean_apply (s : RateState) (ip : Ip) (now : Time) :
    record_request (clean_old s ip now) ip now ip
      = (s ip).filter (fun t => decide (now - t < RATE_LIMIT_WINDOW)) ++ [now] := by
  rw [record_request_apply, clean_old_apply, filter_window_idem]

/-- When the rate limiter reports over-limit the handler answers 429 and
records nothing. -/
theorem send_otp_rejected (cfg : TwilioConfig) (s : RateState) (ip : Ip) (now : Time)
    (ph : Option String) (d : Except String String)
    (h : (too_many_requests s ip now).1 = true) :
    send_otp cfg s ip now ph d
      = { status := 429, body := "Rate limit exceeded. Try again later.",
          state := (too_many_requests s ip now).2, deliveryAttempted := false,
          log := none } := by
  simp [send_otp, h]

/-- An admitted request (not over-limit, non-empty normalized phone, digit
count in range) always records `now`, and ends with status 200 or 500. -/
theorem send_otp_admitted (cfg : TwilioConfig) (s : RateState) (ip : Ip) (now : Time)
    (ph : Option String) (d : Except String String)
    (h1 : (too_many_requests s ip now).1 = false)
    (h2 : normalize_phone ph ≠ "")
    (h3 : ¬(((normalize_phone ph).toList.filter (fun ch => ch.isDigit)).length < 8 ∨
            15 < ((normalize_phone ph).toList.filter (fun ch => ch.isDigit)).length)) :
    (send_otp cfg s ip now ph d).state = record_request (clean_old s ip now) ip now ∧
    ((send_otp cfg s ip now ph d).status = 200 ∨ (send_otp cfg s ip now ph d).status = 500) := by
  simp only [send_otp, h1, Bool.false_eq_true, if_false]
  rw [if_neg h2, if_neg h3, too_many_snd]
  cases hB : !(truthy cfg.sid && truthy cfg.token && truthy cfg.from_number) with
  | true => simp [hB]
  | false =>
      cases d with
      | ok sid => simp [hB]
      | error e => simp [hB]

/-- A whitespace character survives neither the digit test nor the plus test
of `normalize_phone`. -/
theorem whitespace_not_kept (c : Char) (h : c.isWhitespace = true) :
    (c.isDigit || c == '+') = false := by
  simp [Char.isWhitespace] at h
  rcases h with ((h | h) | h) | h <;> subst h <;> decide

/-- The character list underlying `normalize_phone`. -/
theorem normalize_phone_toList (number : Option String) :
    (normalize_phone number).toList
      = ((number.getD "").toList).filter (fun ch => ch.isDigit || ch == '+') := rfl

/-! ### C3 -/

/-- C3 counterexample: the code keeps every plus sign, not only a leading one.
On input `"1+2345678"` the normalizer returns the string unchanged, with a
plus sign kept at (non-leading) position 1, contradicting "a plus sign is kept
only in the leading position". -/
theorem C3_counterexample :
    normalize_phone (some "1+2345678") = "1+2345678" ∧
    (normalize_phone (some "1+2345678")).toList[1]? = some '+' ∧
    ('+').isDigit = false := by
  refine ⟨rfl, rfl, rfl⟩

/-- C3 (amended): `normalize_phone` keeps exactly the characters that are
decimal digits or plus signs — a plus sign is kept at every position, not only
the leading one — and returns `""` for null (`none`) or empty input. -/
theorem C3_normalize_characterization :
    (∀ (number : Option String) (c : Char),
        c ∈ (normalize_phone number).toList → (c.isDigit = true ∨ c = '+')) ∧
    (∀ (number : Option String) (c : Char),
        c ∈ (number.getD "").toList → (c.isDigit = true ∨ c = '+') →
          c ∈ (normalize_phone number).toList) ∧
    normalize_phone none = "" ∧ normalize_phone (some "") = "" := by
  refine ⟨?_, ?_, rfl, rfl⟩
  · intro number c hc
    rw [normalize_phone_toList] at hc
    have h := (List.mem_filter.mp hc).2
    rcases Bool.or_eq_true_iff.mp h with h | h
    · exact Or.inl h
    · exact Or.inr (by simpa using h)
  · intro number c hc hkeep
    rw [normalize_phone_toList]
    refine List.mem_filter.mpr ⟨hc, ?_⟩
    rcases hkeep with h | h
    · simp [h]
    · simp [h]

/-- C3 amended-claim witness: on `"a1+b"`, the kept character `'+'` is indeed
a digit-or-plus. -/
theorem C3_normalize_characterization_witness :
    ('+').isDigit = true ∨ '+' = '+' :=
  C3_normalize_characterization.1 (some "a1+b") '+' (by decide)

/-! ### C4 -/

/-- C4: normalizing `"+91 123-456-7890"` yields `"+911234567890"`, whose digit
count is 12, which passes the `[8, 15]` digit-count validation: with an empty
rate-limit table the handler accepts the request (status 200, not 400). -/
theorem C4_normalize_example :
    normalize_phone (some "+91 123-456-7890") = "+911234567890" ∧
    ((normalize_phone (some "+91 123-456-7890")).toList.filter
        (fun ch => ch.isDigit)).length = 12 ∧
    ¬(((normalize_phone (some "+91 123-456-7890")).toList.filter
        (fun ch => ch.isDigit)).length < 8 ∨
      15 < ((normalize_phone (some "+91 123-456-7890")).toList.filter
        (fun ch => ch.isDigit)).length) ∧
    (send_otp ⟨none, none, none, "123456"⟩ emptyState "203.0.113.7" 0
        (some "+91 123-456-7890") (.ok "SM1")).status = 200 := by
  refine ⟨rfl, rfl, by decide, rfl⟩

/-! ### C5 -/

/-- C5: for a request that is not over-limit and whose normalized phone is
non-empty, the handler answers 400 "Invalid phone number format." exactly when
the digit count of the normalized phone lies outside `[8, 15]`; digit counts
inside the range are never rejected this way, regardless of content. -/
theorem C5_digit_count_validation (cfg : TwilioConfig) (s : RateState) (ip : Ip)
    (now : Time) (ph : Option String) (d : Except String String)
    (h1 : (too_many_requests s ip now).1 = false)
    (h2 : normalize_phone ph ≠ "") :
    ((send_otp cfg s ip now ph d).status = 400 ∧
     (send_otp cfg s ip now ph d).body = "Invalid phone number format.")
    ↔ (((normalize_phone ph).toList.filter (fun ch => ch.isDigit)).length < 8 ∨
       15 < ((normalize_phone ph).toList.filter (fun ch => ch.isDigit)).length) := by
  simp only [send_otp, h1, Bool.false_eq_true, if_false]
  rw [if_neg h2]
  by_cases h3 : ((normalize_phone ph).toList.filter (fun ch => ch.isDigit)).length < 8 ∨
      15 < ((normalize_phone ph).toList.filter (fun ch => ch.isDigit)).length
  · rw [if_pos h3]
    simpa using h3
  · rw [if_neg h3]
    simp only [iff_false, h3]
    cases hB : !(truthy cfg.sid && truthy cfg.token && truthy cfg.from_number) with
    | true => simp [hB]
    | false =>
        cases d with
        | ok sid => simp [hB]
        | error e => simp [hB]

/-- C5 witness: a 7-digit phone is rejected as invalid format (and only
because its digit count is out of range). -/
theorem C5_digit_count_validation_witness :
    ((send_otp ⟨none, none, none, "123456"⟩ emptyState "203.0.113.7" 0
        (some "+1234567") (.ok "SM1")).status = 400 ∧
     (send_otp ⟨none, none, none, "123456"⟩ emptyState "203.0.113.7" 0
        (some "+1234567") (.ok "SM1")).body = "Invalid phone number format.")
    ↔ (((normalize_phone (some "+1234567")).toList.filter
          (fun ch => ch.isDigit)).length < 8 ∨
       15 < ((normalize_phone (some "+1234567")).toList.filter
          (fun ch => ch.isDigit)).length) :=
  C5_digit_count_validation ⟨none, none, none, "123456"⟩ emptyState "203.0.113.7" 0
    (some "+1234567") (.ok "SM1") (by decide) (by decide)

/-! ### C6 -/

/-- C6: a request that is not over-limit and whose phone field is absent/null
(`none`, read as `""`), empty, or made only of whitespace characters is
rejected with 400 and the missing-number message. -/
theorem C6_missing_number (cfg : TwilioConfig) (s : RateState) (ip : Ip)
    (now : Time) (ph : Option String) (d : Except String String)
    (h1 : (too_many_requests s ip now).1 = false)
    (h2 : ∀ c ∈ (ph.getD "").toList, c.isWhitespace = true) :
    (send_otp cfg s ip now ph d).status = 400 ∧
    (send_otp cfg s ip now ph d).body = "Phone number required." := by
  have hph : normalize_phone ph = "" := by
    have hnil : ((ph.getD "").toList).filter (fun ch => ch.isDigit || ch == '+') = [] :=
      List.filter_eq_nil_iff.mpr (fun c hc => by
        rw [whitespace_not_kept c (h2 c hc)]
        simp)
    unfold normalize_phone
    rw [hnil]
  simp [send_otp, h1, hph]

/-- C6 witness: a whitespace-only phone field gets the missing-number 400. -/
theorem C6_missing_number_witness :
    (send_otp ⟨none, none, none, "123456"⟩ emptyState "203.0.113.7" 0
        (some "   ") (.ok "SM1")).status = 400 ∧
    (send_otp ⟨none, none, none, "123456"⟩ emptyState "203.0.113.7" 0
        (some "   ") (.ok "SM1")).body = "Phone number required." :=
  C6_missing_number ⟨none, none, none, "123456"⟩ emptyState "203.0.113.7" 0
    (some "   ") (.ok "SM1") (by decide) (by decide)

/-! ### C10 -/

/-- C10: a phone input containing a plus sign but no decimal digit normalizes
to a non-empty string with zero digits, so it reaches the digit-count check
and fails it: 400 with the invalid-format error, not the missing-number
error. -/
theorem C10_plus_without_digits (cfg : TwilioConfig) (s : RateState) (ip : Ip)
    (now : Time) (raw : String) (d : Except String String)
    (h1 : (too_many_requests s ip now).1 = false)
    (hplus : '+' ∈ raw.toList)
    (hnod : ∀ c ∈ raw.toList, c.isDigit = false) :
    (send_otp cfg s ip now (some raw) d).status = 400 ∧
    (send_otp cfg s ip now (some raw) d).body = "Invalid phone number format." := by
  have hmem : '+' ∈ (normalize_phone (some raw)).toList := by
    rw [normalize_phone_toList]
    exact List.mem_filter.mpr ⟨hplus, by decide⟩
  have hph : normalize_phone (some raw) ≠ "" := by
    intro h
    rw [h] at hmem
    simp at hmem
  have hdig : (normalize_phone (some raw)).toList.filter (fun ch => ch.isDigit) = [] := by
    rw [normalize_phone_toList, List.filter_filter]
    exact List.filter_eq_nil_iff.mpr (fun c hc => by
      rw [hnod c hc]
      simp)
  have hlt : (((normalize_phone (some raw)).toList.filter
      (fun ch => ch.isDigit)).length < 8 ∨
      15 < ((normalize_phone (some raw)).toList.filter
      (fun ch => ch.isDigit)).length) := by
    rw [hdig]
    simp
  simp only [send_otp, h1, Bool.false_eq_true, if_false]
  rw [if_neg hph, if_pos hlt]
  exact ⟨rfl, rfl⟩

/-- C10 witness: the bare input `"+"` gets the invalid-format 400. -/
theorem C10_plus_without_digits_witness :
    (send_otp ⟨none, none, none, "123456"⟩ emptyState "203.0.113.7" 0
        (some "+") (.ok "SM1")).status = 400 ∧
    (send_otp ⟨none, none, none, "123456"⟩ emptyState "203.0.113.7" 0
        (some "+") (.ok "SM1")).body = "Invalid phone number format." :=
  C10_plus_without_digits ⟨none, none, none, "123456"⟩ emptyState "203.0.113.7" 0
    "+" (.ok "SM1") (by decide) (by decide) (by decide)

/-! ### C7 -/

/-- C7: an admitted request consumes quota regardless of the downstream
outcome: the handler's resulting table has `now` appended to the pruned list
for the client (so the request is recorded), and the resulting table is
identical across all provider configurations and delivery outcomes
(delivered, dev-simulated, or delivery-failed) — the record happens before,
and independently of, the delivery attempt. -/
theorem C7_quota_consumed (cfg cfg2 : TwilioConfig) (s : RateState) (ip : Ip)
    (now : Time) (ph : Option String) (d d2 : Except String String)
    (h1 : (too_many_requests s ip now).1 = false)
    (h2 : normalize_phone ph ≠ "")
    (h3 : ¬(((normalize_phone ph).toList.filter (fun ch => ch.isDigit)).length < 8 ∨
            15 < ((normalize_phone ph).toList.filter (fun ch => ch.isDigit)).length)) :
    (send_otp cfg s ip now ph d).state ip
        = (s ip).filter (fun t => decide (now - t < RATE_LIMIT_WINDOW)) ++ [now] ∧
    (send_otp cfg s ip now ph d).state = (send_otp cfg2 s ip now ph d2).state := by
  have hA := send_otp_admitted cfg s ip now ph d h1 h2 h3
  have hB := send_otp_admitted cfg2 s ip now ph d2 h1 h2 h3
  constructor
  · rw [hA.1, record_clean_apply]
  · rw [hA.1, hB.1]

/-- C7 witness: a dev-simulated and a failed delivery consume the same quota:
the timestamp is recorded either way. -/
theorem C7_quota_consumed_witness :
    (send_otp ⟨none, none, none, "123456"⟩ emptyState "203.0.113.7" 0
        (some "+911234567890") (.ok "SM1")).state "203.0.113.7"
      = ((emptyState "203.0.113.7").filter
          (fun t => decide ((0:Time) - t < RATE_LIMIT_WINDOW))) ++ [0] ∧
    (send_otp ⟨none, none, none, "123456"⟩ emptyState "203.0.113.7" 0
        (some "+911234567890") (.ok "SM1")).state
      = (send_otp ⟨some "AC", some "TK", some "+15550000000", "123456"⟩ emptyState
          "203.0.113.7" 0 (some "+911234567890") (.error "boom")).state :=
  C7_quota_consumed ⟨none, none, none, "123456"⟩
    ⟨some "AC", some "TK", some "+15550000000", "123456"⟩ emptyState "203.0.113.7" 0
    (some "+911234567890") (.ok "SM1") (.error "boom")
    (by decide) (by decide) (by decide)

/-! ### C8 -/

/-- C8: with any provider credential unset (the conjunction of truthiness
checks false) and a request that is admitted and valid, the handler answers
200, the body contains `"(DEV)"`, and the delivery call is never reached. -/
theorem C8_dev_fallback (cfg : TwilioConfig) (s : RateState) (ip : Ip)
    (now : Time) (ph : Option String) (d : Except String String)
    (hcred : (truthy cfg.sid && truthy cfg.token && truthy cfg.from_number) = false)
    (h1 : (too_many_requests s ip now).1 = false)
    (h2 : normalize_phone ph ≠ "")
    (h3 : ¬(((normalize_phone ph).toList.filter (fun ch => ch.isDigit)).length < 8 ∨
            15 < ((normalize_phone ph).toList.filter (fun ch => ch.isDigit)).length)) :
    (send_otp cfg s ip now ph d).status = 200 ∧
    strContains (send_otp cfg s ip now ph d).body "(DEV)" ∧
    (send_otp cfg s ip now ph d).deliveryAttempted = false := by
  have hB : (!(truthy cfg.sid && truthy cfg.token && truthy cfg.from_number)) = true := by
    rw [hcred]
    rfl
  simp only [send_otp, h1, Bool.false_eq_true, if_false]
  rw [if_neg h2, if_neg h3, if_pos hB]
  refine ⟨rfl, ?_, rfl⟩
  generalize ("Your verification code is: " ++
      (if cfg.fixed_otp = "" then "123456" else cfg.fixed_otp) : String) = m
  refine ⟨"", " Would send to " ++ (normalize_phone ph ++ (": " ++ m)), ?_⟩
  simp [← String.append_assoc]

/-- C8 witness: with no credentials set, a valid phone gets a 200 `(DEV)`
response and no delivery attempt. -/
theorem C8_dev_fallback_witness :
    (send_otp ⟨none, none, none, "123456"⟩ emptyState "203.0.113.7" 0
        (some "+911234567890") (.ok "SM1")).status = 200 ∧
    strContains (send_otp ⟨none, none, none, "123456"⟩ emptyState "203.0.113.7" 0
        (some "+911234567890") (.ok "SM1")).body "(DEV)" ∧
    (send_otp ⟨none, none, none, "123456"⟩ emptyState "203.0.113.7" 0
        (some "+911234567890") (.ok "SM1")).deliveryAttempted = false :=
  C8_dev_fallback ⟨none, none, none, "123456"⟩ emptyState "203.0.113.7" 0
    (some "+911234567890") (.ok "SM1") (by decide) (by decide) (by decide) (by decide)

/-! ### C9 -/

/-- C9 counterexample: the claim's "does not contain the exception's text"
fails literally.  With exception text `"SMS"`, the fixed client-facing body
"Failed to send SMS. Check server logs and Twilio configuration." does contain
the exception's text as a substring. -/
theorem C9_counterexample :
    (send_otp ⟨some "AC", some "TK", some "+15550000000", "123456"⟩ emptyState
        "203.0.113.7" 0 (some "+911234567890") (.error "SMS")).status = 500 ∧
    strContains (send_otp ⟨some "AC", some "TK", some "+15550000000", "123456"⟩
        emptyState "203.0.113.7" 0 (some "+911234567890") (.error "SMS")).body
      "SMS" := by
  refine ⟨rfl, "Failed to send ", ". Check server logs and Twilio configuration.", ?_⟩
  decide

/-- C9 (amended): for every exception raised by the delivery call the handler
answers 500 with a fixed generic message; the client-facing status and body
are identical over any two runs differing only in the exception raised (the
exception text goes only to the server-side log).  The body, being a fixed
string, can coincidentally contain an adversarially chosen exception text such
as `"SMS"`, so "does not contain" holds only in the sense that the body never
depends on the exception. -/
theorem C9_error_response (cfg : TwilioConfig) (s : RateState) (ip : Ip)
    (now : Time) (ph : Option String) (e1 e2 : String) :
    ((send_otp cfg s ip now ph (.error e1)).status
        = (send_otp cfg s ip now ph (.error e2)).status ∧
     (send_otp cfg s ip now ph (.error e1)).body
        = (send_otp cfg s ip now ph (.error e2)).body) ∧
    ((truthy cfg.sid && truthy cfg.token && truthy cfg.from_number) = true →
     (too_many_requests s ip now).1 = false →
     normalize_phone ph ≠ "" →
     ¬(((normalize_phone ph).toList.filter (fun ch => ch.isDigit)).length < 8 ∨
       15 < ((normalize_phone ph).toList.filter (fun ch => ch.isDigit)).length) →
     (send_otp cfg s ip now ph (.error e1)).status = 500 ∧
     (send_otp cfg s ip now ph (.error e1)).body
        = "Failed to send SMS. Check server logs and Twilio configuration." ∧
     (send_otp cfg s ip now ph (.error e1)).log
        = some ("Twilio send error: " ++ e1)) := by
  constructor
  · by_cases h1 : (too_many_requests s ip now).1 = true
    · rw [send_otp_rejected cfg s ip now ph (.error e1) h1,
        send_otp_rejected cfg s ip now ph (.error e2) h1]
      exact ⟨rfl, rfl⟩
    · have h1' : (too_many_requests s ip now).1 = false := by
        simpa using h1
      simp only [send_otp, h1', Bool.false_eq_true, if_false]
      by_cases h2 : normalize_phone ph = ""
      · rw [if_pos h2, if_pos h2]
        exact ⟨rfl, rfl⟩
      · rw [if_neg h2, if_neg h2]
        by_cases h3 : ((normalize_phone ph).toList.filter (fun ch => ch.isDigit)).length < 8 ∨
            15 < ((normalize_phone ph).toList.filter (fun ch => ch.isDigit)).length
        · rw [if_pos h3, if_pos h3]
          exact ⟨rfl, rfl⟩
        · rw [if_neg h3, if_neg h3]
          cases hB : !(truthy cfg.sid && truthy cfg.token && truthy cfg.from_number) <;>
            exact ⟨rfl, rfl⟩
  · intro hcred h1 h2 h3
    have hB : (!(truthy cfg.sid && truthy cfg.token && truthy cfg.from_number)) = false := by
      rw [hcred]
      rfl
    simp only [send_otp, h1, Bool.false_eq_true, if_false]
    rw [if_neg h2, if_neg h3, if_neg (by rw [hB]; exact Bool.false_ne_true)]
    exact ⟨rfl, rfl, rfl⟩

/-- C9 amended-claim witness: two runs with exceptions `"timeout"` and
`"auth failure"` produce identical client-visible responses, 500 with the
fixed body. -/
theorem C9_error_response_witness :
    ((send_otp ⟨some "AC", some "TK", some "+15550000000", "123456"⟩ emptyState
        "203.0.113.7" 0 (some "+911234567890") (.error "timeout")).status
      = (send_otp ⟨some "AC", some "TK", some "+15550000000", "123456"⟩ emptyState
        "203.0.113.7" 0 (some "+911234567890") (.error "auth failure")).status ∧
     (send_otp ⟨some "AC", some "TK", some "+15550000000", "123456"⟩ emptyState
        "203.0.113.7" 0 (some "+911234567890") (.error "timeout")).body
      = (send_otp ⟨some "AC", some "TK", some "+15550000000", "123456"⟩ emptyState
        "203.0.113.7" 0 (some "+911234567890") (.error "auth failure")).body) ∧
    ((send_otp ⟨some "AC", some "TK", some "+15550000000", "123456"⟩ emptyState
        "203.0.113.7" 0 (some "+911234567890") (.error "timeout")).status = 500 ∧
     (send_otp ⟨some "AC", some "TK", some "+15550000000", "123456"⟩ emptyState
        "203.0.113.7" 0 (some "+911234567890") (.error "timeout")).body
      = "Failed to send SMS. Check server logs and Twilio configuration." ∧
     (send_otp ⟨some "AC", some "TK", some "+15550000000", "123456"⟩ emptyState
        "203.0.113.7" 0 (some "+911234567890") (.error "timeout")).log
      = some ("Twilio send error: " ++ "timeout")) :=
  ⟨(C9_error_response ⟨some "AC", some "TK", some "+15550000000", "123456"⟩ emptyState
      "203.0.113.7" 0 (some "+911234567890") "timeout" "auth failure").1,
   (C9_error_response ⟨some "AC", some "TK", some "+15550000000", "123456"⟩ emptyState
      "203.0.113.7" 0 (some "+911234567890") "timeout" "auth failure").2
     (by decide) (by decide) (by decide) (by decide)⟩

/-! ### C2 -/

/-- C2: at every evaluation point the stored list for the touched client
address holds only timestamps inside the trailing window: both after the
over-limit check (`too_many_requests`, which prunes before reading) and after
a record (`record_request`, which prunes before writing and appends the
current instant). -/
theorem C2_window_invariant (s : RateState) (ip : Ip) (now : Time) (t : Time) :
    (t ∈ (too_many_requests s ip now).2 ip → now - t < RATE_LIMIT_WINDOW) ∧
    (t ∈ record_request s ip now ip → now - t < RATE_LIMIT_WINDOW) := by
  constructor
  · intro ht
    rw [too_many_snd, clean_old_apply] at ht
    exact of_decide_eq_true (List.mem_filter.mp ht).2
  · intro ht
    rw [record_request_apply] at ht
    rcases List.mem_append.mp ht with h | h
    · exact of_decide_eq_true (List.mem_filter.mp h).2
    · have hnow : t = now := by simpa using h
      rw [hnow, sub_self]
      norm_num [RATE_LIMIT_WINDOW]

/-- C2 witness: a fresh timestamp surviving the check-side prune, and a just
recorded timestamp, are both inside the window. -/
theorem C2_window_invariant_witness :
    ((10:Time) - 5 < RATE_LIMIT_WINDOW) ∧ ((0:Time) - 0 < RATE_LIMIT_WINDOW) :=
  ⟨(C2_window_invariant (fun _ => [5]) "203.0.113.7" 10 5).1
      (by simp [too_many_requests, clean_old, RATE_LIMIT_WINDOW]; norm_num),
   (C2_window_invariant emptyState "203.0.113.7" 0 0).2 (by decide)⟩

/-! ### C1 -/

/-- C1: (i) the rate limiter reports over-limit exactly when, after pruning
timestamps outside the trailing 60-second window, the stored count reaches
`MAX_PER_WINDOW = 3`; (ii) from a fresh table, three requests with a valid
phone inside one 60-second window are admitted (not 429), the fourth request
inside the same window is rejected with 429, and a fifth request after the
window has elapsed is admitted again. -/
theorem C1_rate_limit :
    (∀ (s : RateState) (ip : Ip) (now : Time),
      (too_many_requests s ip now).1 = true ↔
        MAX_PER_WINDOW ≤
          ((s ip).filter (fun t => decide (now - t < RATE_LIMIT_WINDOW))).length) ∧
    (∀ (cfg : TwilioConfig) (ip : Ip) (d : Except String String)
        (t1 t2 t3 t4 t5 : Time),
      t1 ≤ t2 → t2 ≤ t3 → t3 ≤ t4 → t4 - t1 < RATE_LIMIT_WINDOW →
      t3 + RATE_LIMIT_WINDOW ≤ t5 →
      (runStatuses cfg ip (some "+911234567890") d emptyState
          [t1, t2, t3, t4, t5]).map (fun st => decide (st = 429))
        = [false, false, false, true, false]) := by
  constructor
  · intro s ip now
    rw [too_many_fst]
    simp
  · intro cfg ip d t1 t2 t3 t4 t5 h12 h23 h34 h41 h5
    unfold RATE_LIMIT_WINDOW at h41 h5
    have hph2 : normalize_phone (some "+911234567890") ≠ "" := by decide
    have hph3 : ¬(((normalize_phone (some "+911234567890")).toList.filter
        (fun ch => ch.isDigit)).length < 8 ∨
        15 < ((normalize_phone (some "+911234567890")).toList.filter
        (fun ch => ch.isDigit)).length) := by decide
    have w21 : decide (t2 - t1 < RATE_LIMIT_WINDOW) = true := by
      unfold RATE_LIMIT_WINDOW
      exact decide_eq_true (by linarith)
    have w31 : decide (t3 - t1 < RATE_LIMIT_WINDOW) = true := by
      unfold RATE_LIMIT_WINDOW
      exact decide_eq_true (by linarith)
    have w32 : decide (t3 - t2 < RATE_LIMIT_WINDOW) = true := by
      unfold RATE_LIMIT_WINDOW
      exact decide_eq_true (by linarith)
    have w41 : decide (t4 - t1 < RATE_LIMIT_WINDOW) = true := by
      unfold RATE_LIMIT_WINDOW
      exact decide_eq_true (by linarith)
    have w42 : decide (t4 - t2 < RATE_LIMIT_WINDOW) = true := by
      unfold RATE_LIMIT_WINDOW
      exact decide_eq_true (by linarith)
    have w43 : decide (t4 - t3 < RATE_LIMIT_WINDOW) = true := by
      unfold RATE_LIMIT_WINDOW
      exact decide_eq_true (by linarith)
    have w51 : decide (t5 - t1 < RATE_LIMIT_WINDOW) = false := by
      unfold RATE_LIMIT_WINDOW
      exact decide_eq_false (by linarith)
    have w52 : decide (t5 - t2 < RATE_LIMIT_WINDOW) = false := by
      unfold RATE_LIMIT_WINDOW
      exact decide_eq_false (by linarith)
    have w53 : decide (t5 - t3 < RATE_LIMIT_WINDOW) = false := by
      unfold RATE_LIMIT_WINDOW
      exact decide_eq_false (by linarith)
    simp only [runStatuses, List.map_cons, List.map_nil]
    set r1 := send_otp cfg emptyState ip t1 (some "+911234567890") d with hr1
    set r2 := send_otp cfg r1.state ip t2 (some "+911234567890") d with hr2
    set r3 := send_otp cfg r2.state ip t3 (some "+911234567890") d with hr3
    set r4 := send_otp cfg r3.state ip t4 (some "+911234567890") d with hr4
    set r5 := send_otp cfg r4.state ip t5 (some "+911234567890") d with hr5
    have hov1 : (too_many_requests emptyState ip t1).1 = false := by
      rw [too_many_fst]
      simp [emptyState, MAX_PER_WINDOW]
    have hadm1 := send_otp_admitted cfg emptyState ip t1 (some "+911234567890") d
      hov1 hph2 hph3
    have st1 : r1.state ip = [t1] := by
      rw [hr1, hadm1.1, record_clean_apply]
      simp [emptyState]
    have hov2 : (too_many_requests r1.state ip t2).1 = false := by
      rw [too_many_fst, st1]
      refine decide_eq_false ?_
      intro hle
      unfold MAX_PER_WINDOW at hle
      have hb := List.length_filter_le
        (fun t => decide (t2 - t < RATE_LIMIT_WINDOW)) [t1]
      simp at hb
      omega
    have hadm2 := send_otp_admitted cfg r1.state ip t2 (some "+911234567890") d
      hov2 hph2 hph3
    have st2 : r2.state ip = [t1, t2] := by
      rw [hr2, hadm2.1, record_clean_apply, st1]
      simp [List.filter_cons, w21]
    have hov3 : (too_many_requests r2.state ip t3).1 = false := by
      rw [too_many_fst, st2]
      refine decide_eq_false ?_
      intro hle
      unfold MAX_PER_WINDOW at hle
      have hb := List.length_filter_le
        (fun t => decide (t3 - t < RATE_LIMIT_WINDOW)) [t1, t2]
      simp at hb
      omega
    have hadm3 := send_otp_admitted cfg r2.state ip t3 (some "+911234567890") d
      hov3 hph2 hph3
    have st3 : r3.state ip = [t1, t2, t3] := by
      rw [hr3, hadm3.1, record_clean_apply, st2]
      simp [List.filter_cons, w31, w32]
    have hov4 : (too_many_requests r3.state ip t4).1 = true := by
      rw [too_many_fst, st3]
      simp [List.filter_cons, w41, w42, w43, MAX_PER_WINDOW]
    have hrej4 := send_otp_rejected cfg r3.state ip t4 (some "+911234567890") d hov4
    have st4 : r4.state ip = [t1, t2, t3] := by
      rw [hr4, hrej4, too_many_snd]
      show clean_old r3.state ip t4 ip = [t1, t2, t3]
      rw [clean_old_apply, st3]
      simp [List.filter_cons, w41, w42, w43]
    have hov5 : (too_many_requests r4.state ip t5).1 = false := by
      rw [too_many_fst, st4]
      simp [List.filter_cons, w51, w52, w53, MAX_PER_WINDOW]
    have hadm5 := send_otp_admitted cfg r4.state ip t5 (some "+911234567890") d
      hov5 hph2 hph3
    have c1 : decide (r1.status = 429) = false := by
      rcases hadm1.2 with h | h <;> rw [hr1, h] <;> decide
    have c2 : decide (r2.status = 429) = false := by
      rcases hadm2.2 with h | h <;> rw [hr2, h] <;> decide
    have c3 : decide (r3.status = 429) = false := by
      rcases hadm3.2 with h | h <;> rw [hr3, h] <;> decide
    have c4 : decide (r4.status = 429) = true := by
      rw [hr4, hrej4]
      rfl
    have c5 : decide (r5.status = 429) = false := by
      rcases hadm5.2 with h | h <;> rw [hr5, h] <;> decide
    rw [c1, c2, c3, c4, c5]

/-- C1 witness: four immediate requests then one after the window, at instants
0, 0, 0, 0, 60: the fourth is the only 429; the fifth is admitted again. -/
theorem C1_rate_limit_witness :
    (runStatuses ⟨none, none, none, "123456"⟩ "203.0.113.7" (some "+911234567890")
        (.ok "SM1") emptyState [0, 0, 0, 0, 60]).map (fun st => decide (st = 429))
      = [false, false, false, true, false] :=
  C1_rate_limit.2 ⟨none, none, none, "123456"⟩ "203.0.113.7" (.ok "SM1") 0 0 0 0 60
    le_rfl le_rfl le_rfl (by norm_num [RATE_LIMIT_WINDOW])
    (by norm_num [RATE_LIMIT_WINDOW])
